import Mathlib

/-!
Shallow embedding of the GraphSense Maltego transform core
(`api/utils.py` and `transforms/utils.py`) together with theorems
settling the specification claims about it.

Modelling conventions:
- Python dicts of Maltego request properties are association lists
  `List (String × String)` with first-match lookup (`pget`) and key
  membership (`pyIn`); Python truthiness of an optional string is
  `pyTruthy` (absent and `""` are falsy).
- Python `re.search` is modelled by a small executable regex engine
  (`Regex`, `matchEnds`, `regexSearch`) covering exactly the constructs
  the five source patterns use: literals, character classes, counted
  repetition of a class, alternation, option, concatenation, and the
  zero-width word-boundary assertion.
- Python float division of smallest-unit amounts by a currency factor is
  modelled with exact rationals `ℚ`.
- Maltego side effects (`response.addEntity`, `entity.addProperty`, …)
  are modelled functionally: an `Entity` record accumulates its
  properties, overlays, link label, icon and weight, and the response is
  the list of entities added to it, in order.
- A Python run that raises an uncaught exception (attribute access on
  `None`) is modelled as the result `none` of an `Option`-valued
  function.
-/

/-! ## Python dict and truthiness helpers -/

/-- A Maltego property mapping: association list with first-match lookup. -/
def PropMap : Type := List (String × String)

/-- Key membership, modelling Python `k in d`. -/
def pyIn (props : PropMap) (k : String) : Bool :=
  List.any props (fun kv => kv.1 == k)

/-- Lookup, modelling Python `d.get(k)` (first matching key). -/
def pget (props : PropMap) (k : String) : Option String :=
  (List.find? (fun kv => kv.1 == k) props).map (·.2)

/-- Python truthiness of an optional string: `None` and `""` are falsy. -/
def pyTruthy : Option String → Bool
  | none => false
  | some s => !(s.isEmpty)

/-- Python `a or b` on optional strings: yields `b` when `a` is falsy. -/
def pyOr (a b : Option String) : Option String :=
  if pyTruthy a then a else b

/-- Python `needle in haystack` on strings (substring containment). -/
def pyContains (haystack needle : String) : Bool :=
  (List.range (haystack.data.length + 1)).any
    (fun i => needle.data.isPrefixOf (haystack.data.drop i))

/-- All-decimal-digit parse of a nonempty char list (base 10). -/
def pyDigits? (l : List Char) : Option Nat :=
  if l.isEmpty then none
  else if l.all (·.isDigit) then
    some (l.foldl (fun n c => 10 * n + (c.toNat - '0'.toNat)) 0)
  else none

/-- Strip leading and trailing whitespace from a character list. -/
def pyStripChars (l : List Char) : List Char :=
  ((l.dropWhile Char.isWhitespace).reverse.dropWhile Char.isWhitespace).reverse

/-- Python `int(s)` on a string: strip whitespace, optional sign, decimal
digits; `none` models the raised `ValueError`. -/
def pyIntOfString (s : String) : Option Int :=
  match pyStripChars s.data with
  | '+' :: rest => (pyDigits? rest).map (fun n => (n : Int))
  | '-' :: rest => (pyDigits? rest).map (fun n => -(n : Int))
  | l => (pyDigits? l).map (fun n => (n : Int))

/-- Python `int(v)` on an optional string: `int(None)` raises `TypeError`,
modelled as `none` (the source catches both error kinds). -/
def pyIntOpt : Option String → Option Int
  | none => none
  | some s => pyIntOfString s

/-! ## Regex engine (the subset used by `get_currency`) -/

/-- Is `c` a word character for `\b` (ASCII `\w`)? -/
def isWordChar (c : Char) : Bool := c.isAlphanum || c == '_'

/-- Is the character at index `i` of `s` a word character (false past the
end)? -/
def wordAt (s : List Char) (i : Nat) : Bool :=
  match s.drop i with
  | [] => false
  | c :: _ => isWordChar c

/-- Word boundary between positions `i-1` and `i`. -/
def atWordBoundary (s : List Char) (i : Nat) : Bool :=
  (if i == 0 then false else wordAt s (i - 1)) != wordAt s i

/-- Regular expressions, restricted to the constructs appearing in the
five currency patterns of `get_currency`. -/
inductive Regex where
  | lit (cs : List Char)
  | cls (p : Char → Bool)
  | reps (p : Char → Bool) (lo hi : Nat)
  | cat (r₁ r₂ : Regex)
  | alt (r₁ r₂ : Regex)
  | opt (r : Regex)
  | wb

/-- Length of the longest prefix of `l` whose characters all satisfy `p`. -/
def runLen (p : Char → Bool) : List Char → Nat
  | [] => 0
  | c :: cs => if p c then runLen p cs + 1 else 0

/-- All end positions of a match of `r` in `s` starting at position `i`. -/
def matchEnds : Regex → List Char → Nat → List Nat
  | .lit cs, s, i => if cs.isPrefixOf (s.drop i) then [i + cs.length] else []
  | .cls p, s, i =>
      match s.drop i with
      | [] => []
      | c :: _ => if p c then [i + 1] else []
  | .reps p lo hi, s, i =>
      let m := min hi (runLen p (s.drop i))
      if lo ≤ m then (List.range (m + 1 - lo)).map (fun k => i + lo + k) else []
  | .cat r₁ r₂, s, i => (matchEnds r₁ s i).flatMap (matchEnds r₂ s)
  | .alt r₁ r₂, s, i => matchEnds r₁ s i ++ matchEnds r₂ s i
  | .opt r, s, i => i :: matchEnds r s i
  | .wb, s, i => if atWordBoundary s i then [i] else []

/-- Python `re.search(r, s)` viewed as a Boolean: some match starts at
some position. -/
def regexSearch (r : Regex) (s : String) : Bool :=
  (List.range (s.data.length + 1)).any (fun i => !(matchEnds r s.data i).isEmpty)

/-! ## The five character classes of the source patterns -/

/-- `[a-km-zA-HJ-NP-Z1-9]` (base58). -/
def base58Char (c : Char) : Bool :=
  ('a' ≤ c && c ≤ 'k') || ('m' ≤ c && c ≤ 'z') ||
  ('A' ≤ c && c ≤ 'H') || ('J' ≤ c && c ≤ 'N') || ('P' ≤ c && c ≤ 'Z') ||
  ('1' ≤ c && c ≤ '9')

/-- `[ac-hj-np-z02-9]` (bech32-like). -/
def bech32Char (c : Char) : Bool :=
  c == 'a' || ('c' ≤ c && c ≤ 'h') || ('j' ≤ c && c ≤ 'n') ||
  ('p' ≤ c && c ≤ 'z') || c == '0' || ('2' ≤ c && c ≤ '9')

/-- `[0-9a-zA-Z]`. -/
def alnumChar (c : Char) : Bool :=
  ('0' ≤ c && c ≤ '9') || ('a' ≤ c && c ≤ 'z') || ('A' ≤ c && c ≤ 'Z')

/-- `[0-9a-fA-F]`. -/
def hexChar (c : Char) : Bool :=
  ('0' ≤ c && c ≤ '9') || ('a' ≤ c && c ≤ 'f') || ('A' ≤ c && c ≤ 'F')

/-- `[13]`. -/
def oneThreeChar (c : Char) : Bool := c == '1' || c == '3'

/-- `[LM3]`. -/
def lm3Char (c : Char) : Bool := c == 'L' || c == 'M' || c == '3'

/-- `[tz]`. -/
def tzChar (c : Char) : Bool := c == 't' || c == 'z'

/-! ## The five source regexes -/

/-- `\b([13][a-km-zA-HJ-NP-Z1-9]{25,34})|bc(0([ac-hj-np-z02-9]{39}|[ac-hj-np-z02-9]{59})|1[ac-hj-np-z02-9]{8,87})\b` -/
def btcRegex : Regex :=
  .alt (.cat .wb (.cat (.cls oneThreeChar) (.reps base58Char 25 34)))
       (.cat (.lit ['b', 'c'])
             (.cat (.alt (.cat (.lit ['0'])
                               (.alt (.reps bech32Char 39 39) (.reps bech32Char 59 59)))
                         (.cat (.lit ['1']) (.reps bech32Char 8 87)))
                   .wb))

/-- `\b((?:bitcoincash|bchtest):)?([0-9a-zA-Z]{34})\b` -/
def bchRegex : Regex :=
  .cat .wb
       (.cat (.opt (.cat (.alt (.lit "bitcoincash".data) (.lit "bchtest".data))
                         (.lit [':'])))
             (.cat (.reps alnumChar 34 34) .wb))

/-- `\b[LM3][a-km-zA-HJ-NP-Z1-9]{25,33}\b` -/
def ltcRegex : Regex :=
  .cat .wb (.cat (.cls lm3Char) (.cat (.reps base58Char 25 33) .wb))

/-- `\b[tz][13][a-km-zA-HJ-NP-Z1-9]{33}\b` -/
def zecRegex : Regex :=
  .cat .wb (.cat (.cls tzChar) (.cat (.cls oneThreeChar) (.cat (.reps base58Char 33 33) .wb)))

/-- `\b(0x)?[0-9a-fA-F]{40}\b` -/
def ethRegex : Regex :=
  .cat .wb (.cat (.opt (.lit ['0', 'x'])) (.cat (.reps hexChar 40 40) .wb))

/-! ## `get_currency` (api/utils.py) -/

/-- `get_currency(address)`: append each currency whose pattern matches,
in the fixed test order; empty result means "Currency not supported". -/
def get_currency (address : String) : List String × String :=
  let currencies : List String := []
  let currencies := if regexSearch btcRegex address then currencies ++ ["btc"] else currencies
  let currencies := if regexSearch bchRegex address then currencies ++ ["bch"] else currencies
  let currencies := if regexSearch ltcRegex address then currencies ++ ["ltc"] else currencies
  let currencies := if regexSearch zecRegex address then currencies ++ ["zec"] else currencies
  let currencies := if regexSearch ethRegex address then currencies ++ ["eth"] else currencies
  if currencies.isEmpty then ([], "Currency not supported") else (currencies, "")

/-- The per-currency format predicate of `get_currency`, by currency code
(false for codes outside the configured five). -/
def currencyMatches (c : String) (address : String) : Bool :=
  if c == "btc" then regexSearch btcRegex address
  else if c == "bch" then regexSearch bchRegex address
  else if c == "ltc" then regexSearch ltcRegex address
  else if c == "zec" then regexSearch zecRegex address
  else if c == "eth" then regexSearch ethRegex address
  else false

/-! ## Currency configuration (CURRENCY_CONFIG) -/

/-- One entry of `CURRENCY_CONFIG`: Maltego entity type, smallest-unit
factor (exact rational standing for the Python float), unit label. -/
structure CurrencyConf where
  type : String
  factor : ℚ
  label : String
deriving DecidableEq, Repr

/-- The process-wide currency table of `api/utils.py`. -/
def CURRENCY_CONFIG : List (String × CurrencyConf) :=
  [("btc", ⟨"maltego.BTCAddress", 10 ^ 8, "Satoshi"⟩),
   ("bch", ⟨"maltego.BCHAddress", 10 ^ 8, "Satoshi"⟩),
   ("ltc", ⟨"maltego.LTCAddress", 10 ^ 8, "Litoshi"⟩),
   ("zec", ⟨"maltego.ZECAddress", 10 ^ 8, "Zatoshi"⟩),
   ("eth", ⟨"maltego.ETHAddress", 10 ^ 18, "Wei"⟩)]

/-- `CURRENCY_CONFIG.get(currency)` (no default). -/
def configGet (currency : String) : Option CurrencyConf :=
  (List.find? (fun kv => kv.1 == currency) CURRENCY_CONFIG).map (·.2)

/-- `CURRENCY_CONFIG.get(currency, {"factor": 1e8})["factor"]`. -/
def lookupFactor (currency : String) : ℚ :=
  match configGet currency with
  | some conf => conf.factor
  | none => 10 ^ 8

/-! ## Backend record and Maltego entity model -/

/-- A fiat valuation entry (`fiat_values` element). -/
structure FiatValue where
  code : String
  value : ℚ
deriving DecidableEq, Repr

/-- A smallest-unit amount with optional fiat valuations (`balance`,
`total_received`, `total_spent`). -/
structure Values where
  value : Int
  fiat_values : List FiatValue
deriving DecidableEq, Repr

/-- A transaction summary (`first_tx` / `last_tx`). -/
structure TxSummary where
  timestamp : Int
deriving DecidableEq, Repr

/-- The backend primary record, covering the fields the projector reads.
`address = none` models a cluster record (no `address` attribute). -/
structure Details where
  address : Option String
  entity : Int
  no_addresses : Int
  balance : Values
  total_received : Values
  total_spent : Values
  no_incoming_txs : Int
  no_outgoing_txs : Int
  first_tx : Option TxSummary
  last_tx : Option TxSummary
deriving DecidableEq, Repr

/-- An attribution tag; `none` fields model absent-or-null attributes. -/
structure Tag where
  label : Option String
  category : Option String
  source : Option String
  tagpack_creator : Option String
  tagpack_title : Option String
  abuse : Option String
  confidence_level : Option Int
deriving DecidableEq, Repr

/-- The tag-collection argument: an object exposing `address_tags` and/or
`entity_tags` attributes, or a raw Python list. -/
inductive TagsObj where
  | record (address_tags : Option (List Tag)) (entity_tags : Option (List Tag))
  | rawList (tags : List Tag)
deriving DecidableEq, Repr

/-- A Maltego property value. -/
inductive PValue where
  | s (v : String)
  | i (v : Int)
  | q (v : ℚ)
  | ts (v : Int)
deriving DecidableEq, Repr

/-- One Maltego entity property (internal name, display name, matching
mode, value); omitted arguments are `none`. -/
structure EProp where
  name : String
  display : Option String
  matching : Option String
  value : PValue
deriving DecidableEq, Repr

/-- Overlay position (the three used by the source). -/
inductive OverlayPosition where
  | northWest
  | west
  | southWest
deriving DecidableEq, Repr

/-- Overlay kind. -/
inductive OverlayKind where
  | image
  | text
deriving DecidableEq, Repr

/-- An entity overlay. -/
structure Overlay where
  content : String
  position : OverlayPosition
  kind : OverlayKind
deriving DecidableEq, Repr

/-- A Maltego output entity accumulated functionally. -/
structure Entity where
  type : String
  value : String
  props : List EProp
  overlays : List Overlay
  linkLabel : Option String
  iconURL : Option String
  displayInfo : List (String × String)
  weight : Option Int
deriving DecidableEq, Repr

/-- `response.addEntity(type, value)`: a fresh entity. -/
def mkEntity (type value : String) : Entity :=
  ⟨type, value, [], [], none, none, [], none⟩

/-- `entity.addProperty(name, display, matching, value=v)`. -/
def addProp (e : Entity) (name : String) (display matching : Option String)
    (v : PValue) : Entity :=
  { e with props := e.props ++ [⟨name, display, matching, v⟩] }

/-- `entity.addOverlay(content, position, kind)`. -/
def addOverlay (e : Entity) (content : String) (pos : OverlayPosition)
    (kind : OverlayKind) : Entity :=
  { e with overlays := e.overlays ++ [⟨content, pos, kind⟩] }

/-- `entity.setLinkLabel(l)`. -/
def setLinkLabel (e : Entity) (l : String) : Entity := { e with linkLabel := some l }

/-- `entity.setIconURL(u)`. -/
def setIconURL (e : Entity) (u : String) : Entity := { e with iconURL := some u }

/-- `entity.addDisplayInformation(content, title)`. -/
def addDisplayInformation (e : Entity) (content title : String) : Entity :=
  { e with displayInfo := e.displayInfo ++ [(content, title)] }

/-- `entity.setWeight(w)`. -/
def setWeight (e : Entity) (w : Int) : Entity := { e with weight := some w }

/-- First property of `e` with the given internal name, if any. -/
def propValue (e : Entity) (name : String) : Option PValue :=
  (List.find? (fun p => p.name == name) e.props).map (·.value)

/-! ## `_add_common_properties` (api/utils.py) -/

/-- `_add_common_properties(entity, details, currency)`: balance, fiat,
received/sent/throughput (divided by the currency factor), transaction
counts, and first/last transaction timestamps. -/
def _add_common_properties (entity : Entity) (details : Details)
    (currency : String) : Entity :=
  let factor := lookupFactor currency
  let balance := details.balance
  let total_received := details.total_received
  let total_spent := details.total_spent
  let entity := addProp entity "final_balance" (some ("Final balance (" ++ currency ++ ")"))
    none (.q ((balance.value : ℚ) / factor))
  let entity :=
    match balance.fiat_values with
    | [] => entity
    | fiat :: _ => addProp entity "final_balance_fiat"
        (some ("Final balance (" ++ fiat.code ++ ")")) none (.q fiat.value)
  let entity := addProp entity "total_received" (some "Total received")
    none (.q ((total_received.value : ℚ) / factor))
  let entity := addProp entity "total_sent" (some "Total sent")
    none (.q ((total_spent.value : ℚ) / factor))
  let entity := addProp entity "total_throughput" (some "Total throughput")
    none (.q (((total_received.value + total_spent.value : Int) : ℚ) / factor))
  let entity := addProp entity "num_transactions" (some "Number of transactions")
    none (.i (details.no_incoming_txs + details.no_outgoing_txs))
  let entity := addProp entity "num_in_transactions" (some "Number of incoming transactions")
    none (.i details.no_incoming_txs)
  let entity := addProp entity "num_out_transactions" (some "Number of outgoing transactions")
    none (.i details.no_outgoing_txs)
  let entity :=
    match details.first_tx with
    | none => entity
    | some tx => addProp entity "First_tx" (some "First transaction (UTC)") none (.ts tx.timestamp)
  match details.last_tx with
  | none => entity
  | some tx => addProp entity "Last_tx" (some "Last transaction (UTC)") none (.ts tx.timestamp)

/-! ## `create_entity_with_details` and its helpers (api/utils.py) -/

/-- The tagged-overlay test of the `details` and `cluster` branches:
`hasattr(t, 'address_tags') and t.address_tags` or likewise for
`entity_tags`. -/
def hasAnyTags : TagsObj → Bool
  | .record a e =>
      (match a with | some l => !l.isEmpty | none => false) ||
      (match e with | some l => !l.isEmpty | none => false)
  | .rawList _ => false

/-- The tag-list extraction of the `tags`/`entity_tags` branch:
`address_tags` if that attribute exists, else `entity_tags` if that
attribute exists, else the object itself when it is a raw list, else the
initial `[]`. -/
def extractTags : TagsObj → List Tag
  | .record (some l) _ => l
  | .record none (some l) => l
  | .record none none => []
  | .rawList l => l

/-- `safe_add_prop(entity, name, value, matching)`: add the property only
when the value is not `None`; the display name replaces underscores with
spaces. -/
def safe_add_prop (entity : Entity) (name : String) (value : Option String)
    (matching : String) : Entity :=
  match value with
  | none => entity
  | some v => addProp entity name (some (name.replace "_" " ")) (some matching) (.s v)

/-- The loop body of the `tags`/`entity_tags` branch: build one
`maltego.CryptocurrencyOwner` entity for one tag. -/
def buildTagEntity (currency : String) (tag : Tag) : Entity :=
  let entity :=
    if pyTruthy tag.label then
      mkEntity "maltego.CryptocurrencyOwner" (tag.label.getD "")
    else
      let creator := tag.tagpack_creator.getD "Unknown"
      setIconURL (mkEntity "maltego.CryptocurrencyOwner" ("Undisclosed, contact: " ++ creator))
        "Unknown"
  let entity := setLinkLabel entity ("To tags [GraphSense] (" ++ currency ++ ")")
  let entity := safe_add_prop entity "OwnerType" tag.category "loose"
  let entity := safe_add_prop entity "Source_URI" tag.source "loose"
  let entity :=
    if pyTruthy tag.source then
      let src := tag.source.getD ""
      addDisplayInformation entity ("<a href=\"" ++ src ++ "\">" ++ src ++ "</a>") "Source URI"
    else entity
  let entity := safe_add_prop entity "tagpack_creator" tag.tagpack_creator "strict"
  let entity := safe_add_prop entity "tagpack_title" tag.tagpack_title "loose"
  let entity := safe_add_prop entity "Abuse_type" tag.abuse "loose"
  let entity := safe_add_prop entity "Category" tag.category "loose"
  match tag.confidence_level with
  | none => entity
  | some cl => setWeight (addProp entity "Confidence_level" (some "Confidence Level")
      (some "loose") (.i cl)) cl

/-- The `details` branch body: the entity built for an address or
cluster record (cluster when the record has no `address` attribute),
with common numeric properties and the tagged overlay. -/
def buildDetailsEntity (conf : CurrencyConf) (currency : String) (obj : Details)
    (tags_obj : TagsObj) : Entity :=
  let is_cluster := obj.address.isNone
  let entity :=
    if is_cluster then
      addProp (mkEntity "maltego.CryptocurrencyWallet" (toString obj.entity))
        "num_addresses" (some "Number of addresses") none (.i obj.no_addresses)
    else
      let e := mkEntity conf.type (obj.address.getD "")
      let e := addProp e "currency" (some "Currency") none (.s currency)
      addProp e "cluster_ID" (some "Cluster ID") (some "loose") (.i obj.entity)
  let entity := _add_common_properties entity obj currency
  if hasAnyTags tags_obj then addOverlay entity "Businessman" .northWest .image
  else entity

/-- The `cluster` branch body: the wallet entity with link label, cluster
properties, common numeric properties, address-count overlay, currency
icon overlay, and the tagged overlay. -/
def buildClusterEntity (conf : CurrencyConf) (currency : String) (obj : Details)
    (tags_obj : TagsObj) : Entity :=
  let entity := mkEntity "maltego.CryptocurrencyWallet" (toString obj.entity)
  let entity := setLinkLabel entity ("To Cluster [GraphSense] (" ++ currency ++ ")")
  let entity := addProp entity "cryptocurrency.wallet.name" none none
    (.s (toString obj.entity))
  let entity := addProp entity "cluster_ID" (some "Cluster ID") none
    (.s (toString obj.entity))
  let entity := addProp entity "currency" (some "Currency") (some "strict") (.s currency)
  let entity := addProp entity "Number_addresses" (some "Number of Addresses") none
    (.i obj.no_addresses)
  let entity := _add_common_properties entity obj currency
  let entity := addOverlay entity (toString obj.no_addresses) .southWest .text
  let icon_name := conf.type.drop 8
  let icon_name := if icon_name == "ZECAddress" then "zcash_icon_fullcolor" else icon_name
  let entity := addOverlay entity icon_name .west .image
  if hasAnyTags tags_obj then addOverlay entity "Businessman" .northWest .image
  else entity

/-- `create_entity_with_details(api_result, currency, query_type, response)`.
The result is `none` when the Python original would raise (attribute
access on a `None` primary object); otherwise it is the returned
`(entity_or_none, error)` pair together with the response entity list
after the call. -/
def create_entity_with_details (api_result : Option Details × TagsObj × String)
    (currency : String) (query_type : String) (response : List Entity) :
    Option ((Option Entity × String) × List Entity) :=
  let (obj?, tags_obj, error) := api_result
  if !error.isEmpty then some ((none, error), response)
  else
    match configGet currency with
    | none => some ((none, "Unsupported currency: " ++ currency), response)
    | some conf =>
      if query_type == "details" then
        match obj? with
        | none => none
        | some obj =>
          let entity := buildDetailsEntity conf currency obj tags_obj
          some ((some entity, ""), response ++ [entity])
      else if query_type == "cluster" then
        match obj? with
        | none => none
        | some obj =>
          let entity := buildClusterEntity conf currency obj tags_obj
          some ((some entity, ""), response ++ [entity])
      else if query_type == "tags" || query_type == "entity_tags" then
        let tags := extractTags tags_obj
        if tags.isEmpty then
          some ((none, "No attribution tags found for this query in " ++ currency), response)
        else
          some ((none, ""), response ++ tags.map (buildTagEntity currency))
      else
        some ((none, "Unknown query type: " ++ query_type), response)

/-! ## `transforms/utils.py` -/

/-- `set_maltego_transformation_error(response, currency, query_type,
address, error)`: the message string delivered to the Maltego UI (always
with partial-failure severity). -/
def set_maltego_transformation_error (currency query_type address error : String) : String :=
  if pyContains error "504 Bad Gateway" then
    "\nGraphSense server 504 error during " ++ query_type ++ " for " ++ currency ++
      " on " ++ address ++ "\n"
  else if pyContains error "(404)" then
    "\nNothing found in " ++ currency ++ " for: " ++ address ++ "\n"
  else
    "Error (" ++ currency ++ "): " ++ error

/-- `get_currency_from_entity_details(entity_details)` (api/utils.py):
marker-key short circuit, then regex detection on the address. -/
def get_currency_from_entity_details (entity_details : PropMap) : List String × String :=
  match List.find? (fun kv => pyIn entity_details kv.1)
      [("BTCAddress", "btc"), ("BCHAddress", "bch"), ("LTCAddress", "ltc"),
       ("ZECAddress", "zec"), ("ETHAddress", "eth")] with
  | some kv => ([kv.2], "")
  | none =>
    let address := pget entity_details "properties.cryptocurrencyaddress"
    if pyTruthy address then get_currency (address.getD "")
    else ([], "No address or currency found in entity details")

/-- `extract_address_and_currencies(properties)`: the request classifier. -/
def extract_address_and_currencies (properties : PropMap) :
    Option String × List String × Option String :=
  if pyIn properties "cryptocurrency.wallet.name" || pyIn properties "cluster_ID" then
    let val := pyOr (pget properties "cryptocurrency.wallet.name")
      (pget properties "cluster_ID")
    match pyIntOpt val with
    | none => (none, [], some "Invalid Cluster/Wallet ID format (expected integer)")
    | some n =>
      let address := toString n
      let currency := pget properties "currency"
      if !pyTruthy currency then (none, [], some "Cluster found but currency is missing")
      else (some address, [currency.getD ""], none)
  else
    let address := pget properties "properties.cryptocurrencyaddress"
    if !pyTruthy address then
      (none, [], some "No cryptocurrency address found in properties")
    else if pyIn properties "currency" then
      (address, [(pget properties "currency").getD ""], none)
    else
      let (currencies, error) := get_currency_from_entity_details properties
      if !error.isEmpty then (address, [], some error)
      else (address, currencies, none)

/-! ## Theorems -/

/-- C1: For every input address string, `get_currency` returns exactly the
currencies whose format predicate matches, appended in the fixed test
order btc, bch, ltc, zec, eth, with no duplicates; and it returns an
empty candidate list together with the non-empty error
"Currency not supported" if and only if none of the five predicates
matches. -/
theorem get_currency_exact_matches (address : String) :
    (get_currency address).1 =
      (["btc", "bch", "ltc", "zec", "eth"].filter (fun c => currencyMatches c address))
    ∧ (get_currency address).1.Nodup
    ∧ (∀ c, c ∈ (get_currency address).1 ↔
        (c ∈ (["btc", "bch", "ltc", "zec", "eth"] : List String) ∧ currencyMatches c address = true))
    ∧ (((get_currency address).1 = [] ∧ (get_currency address).2 = "Currency not supported")
        ↔ ∀ c ∈ (["btc", "bch", "ltc", "zec", "eth"] : List String),
            currencyMatches c address = false)
    ∧ ((get_currency address).1 ≠ [] → (get_currency address).2 = "") := by
  have hmain : (get_currency address).1 =
        (["btc", "bch", "ltc", "zec", "eth"].filter (fun c => currencyMatches c address))
      ∧ (get_currency address).1.Nodup
      ∧ (((get_currency address).1 = [] ∧ (get_currency address).2 = "Currency not supported")
          ↔ ∀ c ∈ (["btc", "bch", "ltc", "zec", "eth"] : List String),
              currencyMatches c address = false)
      ∧ ((get_currency address).1 ≠ [] → (get_currency address).2 = "") := by
    cases hb : regexSearch btcRegex address <;>
      cases hh : regexSearch bchRegex address <;>
      cases hl : regexSearch ltcRegex address <;>
      cases hz : regexSearch zecRegex address <;>
      cases he : regexSearch ethRegex address <;>
      simp [get_currency, currencyMatches, hb, hh, hl, hz, he]
  refine ⟨hmain.1, hmain.2.1, ?_, hmain.2.2.1, hmain.2.2.2⟩
  intro c
  rw [hmain.1, List.mem_filter]

/-- Helper for C7: the backend-unavailable message and the nothing-found
message are distinct strings whatever is interpolated into them (their
second characters differ). -/
theorem msg504_ne_msg404 (qt c a c' a' : String) :
    "\nGraphSense server 504 error during " ++ qt ++ " for " ++ c ++ " on " ++ a ++ "\n" ≠
      "\nNothing found in " ++ c' ++ " for: " ++ a' ++ "\n" := by
  intro h
  have hd := congrArg String.data h
  simp only [String.data_append, List.append_assoc] at hd
  have h1 := congrArg (fun l => l[1]?) hd
  simp only at h1
  rw [List.getElem?_append_left (by decide),
    List.getElem?_append_left (by decide)] at h1
  revert h1
  decide

/-- C7: `set_maltego_transformation_error` applies its substring rules in
order: a "504 Bad Gateway" error yields the backend-unavailable message
naming kind, currency and identifier; otherwise a "(404)" error yields
the nothing-found message; otherwise the generic message; and for the
same (currency, kind, identifier) the gateway-timeout and not-found
messages are distinct. -/
theorem error_formatter_spec (currency query_type address error : String) :
    (pyContains error "504 Bad Gateway" = true →
      set_maltego_transformation_error currency query_type address error =
        "\nGraphSense server 504 error during " ++ query_type ++ " for " ++ currency ++
          " on " ++ address ++ "\n")
    ∧ (pyContains error "504 Bad Gateway" = false → pyContains error "(404)" = true →
      set_maltego_transformation_error currency query_type address error =
        "\nNothing found in " ++ currency ++ " for: " ++ address ++ "\n")
    ∧ (pyContains error "504 Bad Gateway" = false → pyContains error "(404)" = false →
      set_maltego_transformation_error currency query_type address error =
        "Error (" ++ currency ++ "): " ++ error)
    ∧ (∀ e₂ : String, pyContains error "504 Bad Gateway" = true →
        pyContains e₂ "504 Bad Gateway" = false → pyContains e₂ "(404)" = true →
        set_maltego_transformation_error currency query_type address error ≠
          set_maltego_transformation_error currency query_type address e₂) := by
  refine ⟨?_, ?_, ?_, ?_⟩
  · intro h504
    simp [set_maltego_transformation_error, h504]
  · intro h504 h404
    simp [set_maltego_transformation_error, h504, h404]
  · intro h504 h404
    simp [set_maltego_transformation_error, h504, h404]
  · intro e₂ h504 h504' h404
    simp only [set_maltego_transformation_error, h504, h504', h404, if_true,
      Bool.false_eq_true, if_false]
    exact msg504_ne_msg404 query_type currency address currency address

/-- Witness for C7 at a concrete gateway-timeout error. -/
theorem error_formatter_spec_witness :
    set_maltego_transformation_error "btc" "details" "addr1" "x 504 Bad Gateway y" =
      "\nGraphSense server 504 error during details for btc on addr1\n" :=
  (error_formatter_spec "btc" "details" "addr1" "x 504 Bad Gateway y").1 (by decide)

/-- A string distinct from `""` has `isEmpty = false`. -/
theorem isEmpty_false_of_ne {s : String} (h : s ≠ "") : s.isEmpty = false := by
  cases he : s.isEmpty
  · rfl
  · exact absurd ((String.isEmpty_iff s).mp he) h

/-- A successful `pget` implies key membership `pyIn`. -/
theorem pyIn_of_pget {props : PropMap} {k v : String} (h : pget props k = some v) :
    pyIn props k = true := by
  unfold pget at h
  cases hf : List.find? (fun kv => kv.1 == k) props with
  | none => rw [hf] at h; simp at h
  | some kv =>
    unfold pyIn
    rw [List.any_eq_true]
    have hpred := List.find?_some hf
    simp only at hpred
    exact ⟨kv, List.mem_of_find?_eq_some hf, hpred⟩

/-- A currency outside the five configured codes has no config entry. -/
theorem configGet_eq_none {currency : String}
    (h : currency ∉ (["btc", "bch", "ltc", "zec", "eth"] : List String)) :
    configGet currency = none := by
  simp only [List.mem_cons, List.not_mem_nil, or_false, not_or] at h
  obtain ⟨h1, h2, h3, h4, h5⟩ := h
  have e1 : ("btc" == currency) = false := by rw [beq_eq_false_iff_ne]; exact Ne.symm h1
  have e2 : ("bch" == currency) = false := by rw [beq_eq_false_iff_ne]; exact Ne.symm h2
  have e3 : ("ltc" == currency) = false := by rw [beq_eq_false_iff_ne]; exact Ne.symm h3
  have e4 : ("zec" == currency) = false := by rw [beq_eq_false_iff_ne]; exact Ne.symm h4
  have e5 : ("eth" == currency) = false := by rw [beq_eq_false_iff_ne]; exact Ne.symm h5
  simp [configGet, CURRENCY_CONFIG, List.find?, e1, e2, e3, e4, e5]

/-- C3: for every lookup result whose error is non-empty and for every
query kind, `create_entity_with_details` returns `(none, that same
error)` unchanged and adds no entity to the response. -/
theorem projector_propagates_error (obj? : Option Details) (tags_obj : TagsObj)
    (currency query_type : String) (response : List Entity) (error : String)
    (herr : error ≠ "") :
    create_entity_with_details (obj?, tags_obj, error) currency query_type response =
      some ((none, error), response) := by
  simp [create_entity_with_details, isEmpty_false_of_ne herr]

/-- Witness for C3. -/
theorem projector_propagates_error_witness :
    create_entity_with_details (none, .rawList [], "boom") "btc" "details" [] =
      some ((none, "boom"), []) :=
  projector_propagates_error none (.rawList []) "btc" "details" [] "boom" (by decide)

/-- C10: (a) for every currency string outside the configured five codes
and every error-free lookup result and query kind, the projector returns
`(none, "Unsupported currency: <currency>")` and adds no entity; (b) the
request classifier passes an explicit currency hint through verbatim,
without validating it, whenever an address is present. -/
theorem unsupported_currency_spec :
    (∀ (currency : String),
      currency ∉ (["btc", "bch", "ltc", "zec", "eth"] : List String) →
      ∀ (obj? : Option Details) (tags_obj : TagsObj) (query_type : String)
        (response : List Entity),
        create_entity_with_details (obj?, tags_obj, "") currency query_type response =
          some ((none, "Unsupported currency: " ++ currency), response))
    ∧ (∀ (props : PropMap) (a cur : String),
        pyIn props "cryptocurrency.wallet.name" = false →
        pyIn props "cluster_ID" = false →
        pget props "properties.cryptocurrencyaddress" = some a → a ≠ "" →
        pget props "currency" = some cur →
        extract_address_and_currencies props = (some a, [cur], none)) := by
  constructor
  · intro currency hcur obj? tags_obj query_type response
    simp [create_entity_with_details, configGet_eq_none hcur,
      show "".isEmpty = true from rfl]
  · intro props a cur hw hc hget ha hcur
    simp [extract_address_and_currencies, hw, hc, hget, hcur, pyIn_of_pget hcur,
      pyTruthy, isEmpty_false_of_ne ha]

/-- Witness for C10. -/
theorem unsupported_currency_spec_witness :
    create_entity_with_details (none, .rawList [], "") "xyz" "details" [] =
        some ((none, "Unsupported currency: xyz"), [])
    ∧ extract_address_and_currencies
        [("properties.cryptocurrencyaddress", "abc"), ("currency", "xyz")] =
        (some "abc", ["xyz"], none) :=
  ⟨unsupported_currency_spec.1 "xyz" (by decide) none (.rawList []) "details" [],
   unsupported_currency_spec.2
     [("properties.cryptocurrencyaddress", "abc"), ("currency", "xyz")]
     "abc" "xyz" (by decide) (by decide) (by decide) (by decide) (by decide)⟩

/-- C5: `_add_common_properties` derives the displayed balance, total
received and total spent by dividing the smallest-unit integer by the
currency profile's factor, and the total-throughput value is
(received + spent) divided by that factor; in particular a balance of
250000000 smallest units with factor 10^8 yields display value 5/2. -/
theorem add_common_properties_division (entity : Entity) (d : Details)
    (currency : String) (conf : CurrencyConf)
    (hconf : configGet currency = some conf) (hprops : entity.props = []) :
    propValue (_add_common_properties entity d currency) "final_balance"
      = some (.q ((d.balance.value : ℚ) / conf.factor))
    ∧ propValue (_add_common_properties entity d currency) "total_received"
      = some (.q ((d.total_received.value : ℚ) / conf.factor))
    ∧ propValue (_add_common_properties entity d currency) "total_sent"
      = some (.q ((d.total_spent.value : ℚ) / conf.factor))
    ∧ propValue (_add_common_properties entity d currency) "total_throughput"
      = some (.q (((d.total_received.value + d.total_spent.value : Int) : ℚ) / conf.factor)) := by
  have hf : lookupFactor currency = conf.factor := by simp [lookupFactor, hconf]
  rcases d with ⟨addr, ent, na, ⟨bv, bf⟩, ⟨rv, rf⟩, ⟨sv, sf⟩, ni, no, ftx, ltx⟩
  refine ⟨?_, ?_, ?_, ?_⟩ <;>
    cases bf <;> cases ftx <;> cases ltx <;>
    simp [_add_common_properties, addProp, propValue, hprops, hf, List.find?]

/-- Witness for C5: a balance of 250000000 smallest units under the btc
profile (factor 10^8) is displayed as 5/2 = 2.5. -/
theorem add_common_properties_division_witness :
    propValue (_add_common_properties ⟨"", "", [], [], none, none, [], none⟩
        ⟨none, 0, 0, ⟨250000000, []⟩, ⟨0, []⟩, ⟨0, []⟩, 0, 0, none, none⟩ "btc")
        "final_balance" = some (.q (5 / 2)) := by
  have h := (add_common_properties_division ⟨"", "", [], [], none, none, [], none⟩
    ⟨none, 0, 0, ⟨250000000, []⟩, ⟨0, []⟩, ⟨0, []⟩, 0, 0, none, none⟩ "btc"
    ⟨"maltego.BTCAddress", 10 ^ 8, "Satoshi"⟩ rfl rfl).1
  rw [h]
  norm_num

/-- C6: for every error-free result projected with kind "cluster", the
projector builds a wallet-type entity whose link label is
"To Cluster [GraphSense] (<currency>)", attaches an address-count
property, a south-west text overlay showing the address count, and a
west image overlay named by the currency profile's entity type with its
8-character prefix stripped, except that a "ZECAddress" profile type
gives the fixed icon name "zcash_icon_fullcolor". -/
theorem projector_cluster_entity_spec (obj : Details) (tags_obj : TagsObj)
    (currency : String) (conf : CurrencyConf) (response : List Entity)
    (hconf : configGet currency = some conf) :
    create_entity_with_details (some obj, tags_obj, "") currency "cluster" response =
      some ((some (buildClusterEntity conf currency obj tags_obj), ""),
        response ++ [buildClusterEntity conf currency obj tags_obj])
    ∧ (buildClusterEntity conf currency obj tags_obj).type = "maltego.CryptocurrencyWallet"
    ∧ (buildClusterEntity conf currency obj tags_obj).value = toString obj.entity
    ∧ (buildClusterEntity conf currency obj tags_obj).linkLabel =
        some ("To Cluster [GraphSense] (" ++ currency ++ ")")
    ∧ propValue (buildClusterEntity conf currency obj tags_obj) "Number_addresses" =
        some (.i obj.no_addresses)
    ∧ (⟨toString obj.no_addresses, .southWest, .text⟩ : Overlay) ∈
        (buildClusterEntity conf currency obj tags_obj).overlays
    ∧ (⟨if conf.type.drop 8 = "ZECAddress" then "zcash_icon_fullcolor" else conf.type.drop 8,
          .west, .image⟩ : Overlay) ∈
        (buildClusterEntity conf currency obj tags_obj).overlays := by
  refine ⟨by simp [create_entity_with_details, hconf, show "".isEmpty = true from rfl],
    ?_, ?_, ?_, ?_, ?_, ?_⟩ <;>
    rcases obj with ⟨addr, ent, na, ⟨bv, bf⟩, ⟨rv, rf⟩, ⟨sv, sf⟩, ni, no, ftx, ltx⟩ <;>
    cases hts : hasAnyTags tags_obj <;> cases bf <;> cases ftx <;> cases ltx <;>
    simp [buildClusterEntity, _add_common_properties, addProp, addOverlay, setLinkLabel,
      mkEntity, propValue, List.find?, hts, beq_iff_eq]

/-- Witness for C6 at a concrete zec cluster record (exercising the
special-cased icon name). -/
theorem projector_cluster_entity_spec_witness :
    create_entity_with_details
        (some ⟨none, 42, 3, ⟨0, []⟩, ⟨0, []⟩, ⟨0, []⟩, 0, 0, none, none⟩, .rawList [], "")
        "zec" "cluster" [] =
      some ((some (buildClusterEntity ⟨"maltego.ZECAddress", 10 ^ 8, "Zatoshi"⟩ "zec"
          ⟨none, 42, 3, ⟨0, []⟩, ⟨0, []⟩, ⟨0, []⟩, 0, 0, none, none⟩ (.rawList [])), ""),
        [buildClusterEntity ⟨"maltego.ZECAddress", 10 ^ 8, "Zatoshi"⟩ "zec"
          ⟨none, 42, 3, ⟨0, []⟩, ⟨0, []⟩, ⟨0, []⟩, 0, 0, none, none⟩ (.rawList [])])
    ∧ (⟨if ("maltego.ZECAddress" : String).drop 8 = "ZECAddress" then "zcash_icon_fullcolor"
          else ("maltego.ZECAddress" : String).drop 8, .west, .image⟩ : Overlay) ∈
        (buildClusterEntity ⟨"maltego.ZECAddress", 10 ^ 8, "Zatoshi"⟩ "zec"
          ⟨none, 42, 3, ⟨0, []⟩, ⟨0, []⟩, ⟨0, []⟩, 0, 0, none, none⟩ (.rawList [])).overlays := by
  have h := projector_cluster_entity_spec
    ⟨none, 42, 3, ⟨0, []⟩, ⟨0, []⟩, ⟨0, []⟩, 0, 0, none, none⟩ (.rawList []) "zec"
    ⟨"maltego.ZECAddress", 10 ^ 8, "Zatoshi"⟩ [] (by rfl)
  refine ⟨?_, h.2.2.2.2.2.2⟩
  simpa using h.1

/-! ### Entity-field preservation lemmas -/

/-- `addProp` only changes `props`. -/
@[simp] theorem addProp_fields (e : Entity) (n : String) (d m : Option String) (v : PValue) :
    (addProp e n d m v).type = e.type ∧ (addProp e n d m v).value = e.value
    ∧ (addProp e n d m v).overlays = e.overlays
    ∧ (addProp e n d m v).linkLabel = e.linkLabel
    ∧ (addProp e n d m v).iconURL = e.iconURL := ⟨rfl, rfl, rfl, rfl, rfl⟩

/-- `safe_add_prop` only changes `props`. -/
@[simp] theorem safe_add_prop_fields (e : Entity) (n : String) (v : Option String) (m : String) :
    (safe_add_prop e n v m).type = e.type ∧ (safe_add_prop e n v m).value = e.value
    ∧ (safe_add_prop e n v m).overlays = e.overlays
    ∧ (safe_add_prop e n v m).linkLabel = e.linkLabel
    ∧ (safe_add_prop e n v m).iconURL = e.iconURL := by
  cases v <;> exact ⟨rfl, rfl, rfl, rfl, rfl⟩

/-- `_add_common_properties` only changes `props`. -/
@[simp] theorem add_common_properties_fields (e : Entity) (d : Details) (c : String) :
    (_add_common_properties e d c).type = e.type
    ∧ (_add_common_properties e d c).value = e.value
    ∧ (_add_common_properties e d c).overlays = e.overlays
    ∧ (_add_common_properties e d c).linkLabel = e.linkLabel
    ∧ (_add_common_properties e d c).iconURL = e.iconURL := by
  rcases d with ⟨addr, ent, na, ⟨bv, bf⟩, ⟨rv, rf⟩, ⟨sv, sf⟩, ni, no, ftx, ltx⟩
  cases bf <;> cases ftx <;> cases ltx <;>
    simp [_add_common_properties, addProp]

/-- `setWeight` leaves `type`, `value` and `iconURL` unchanged. -/
@[simp] theorem setWeight_fields (e : Entity) (w : Int) :
    (setWeight e w).type = e.type ∧ (setWeight e w).value = e.value
    ∧ (setWeight e w).iconURL = e.iconURL := ⟨rfl, rfl, rfl⟩

/-- `setLinkLabel` leaves `type`, `value` and `iconURL` unchanged. -/
@[simp] theorem setLinkLabel_fields (e : Entity) (l : String) :
    (setLinkLabel e l).type = e.type ∧ (setLinkLabel e l).value = e.value
    ∧ (setLinkLabel e l).iconURL = e.iconURL := ⟨rfl, rfl, rfl⟩

/-- `setIconURL` leaves `type` and `value` unchanged. -/
@[simp] theorem setIconURL_fields (e : Entity) (u : String) :
    (setIconURL e u).type = e.type ∧ (setIconURL e u).value = e.value := ⟨rfl, rfl⟩

/-- `addDisplayInformation` leaves `type`, `value` and `iconURL`
unchanged. -/
@[simp] theorem addDisplayInformation_fields (e : Entity) (c t : String) :
    (addDisplayInformation e c t).type = e.type
    ∧ (addDisplayInformation e c t).value = e.value
    ∧ (addDisplayInformation e c t).iconURL = e.iconURL := ⟨rfl, rfl, rfl⟩

/-- `addOverlay` leaves `type`, `value` and `iconURL` unchanged. -/
@[simp] theorem addOverlay_fields (e : Entity) (c : String)
    (p : OverlayPosition) (k : OverlayKind) :
    (addOverlay e c p k).type = e.type ∧ (addOverlay e c p k).value = e.value
    ∧ (addOverlay e c p k).iconURL = e.iconURL := ⟨rfl, rfl, rfl⟩

/-- Every entity built by the tags-branch loop body is owner-typed. -/
theorem buildTagEntity_type (currency : String) (t : Tag) :
    (buildTagEntity currency t).type = "maltego.CryptocurrencyOwner" := by
  unfold buildTagEntity
  cases t.confidence_level <;>
    simp [apply_ite Entity.type, mkEntity, setIconURL]

/-- C4: for every error-free lookup result projected with kind "tags" or
"entity_tags" under a configured currency: when the extracted tag list is
empty the projector returns no entity and the error "No attribution tags
found for this query in <currency>"; when it is non-empty it emits one
owner-type entity per tag directly to the response and returns an empty
error with no singular entity. -/
theorem projector_tags_branch_spec (obj? : Option Details) (tags_obj : TagsObj)
    (currency : String) (conf : CurrencyConf) (query_type : String)
    (response : List Entity) (hconf : configGet currency = some conf)
    (hqt : query_type = "tags" ∨ query_type = "entity_tags") :
    (extractTags tags_obj = [] →
      create_entity_with_details (obj?, tags_obj, "") currency query_type response =
        some ((none, "No attribution tags found for this query in " ++ currency), response))
    ∧ (extractTags tags_obj ≠ [] →
      create_entity_with_details (obj?, tags_obj, "") currency query_type response =
        some ((none, ""), response ++ (extractTags tags_obj).map (buildTagEntity currency))
      ∧ ∀ t ∈ extractTags tags_obj,
          (buildTagEntity currency t).type = "maltego.CryptocurrencyOwner") := by
  constructor
  · intro hempty
    rcases hqt with rfl | rfl <;>
      simp [create_entity_with_details, hconf, hempty, show "".isEmpty = true from rfl]
  · intro hnonempty
    have hne : (extractTags tags_obj).isEmpty = false := by
      cases hEx : extractTags tags_obj with
      | nil => exact absurd hEx hnonempty
      | cons a l => rfl
    refine ⟨?_, fun t _ => buildTagEntity_type currency t⟩
    rcases hqt with rfl | rfl <;>
      simp [create_entity_with_details, hconf, hne, show "".isEmpty = true from rfl]

/-- Witness for C4: a "tags" query with no tags under btc. -/
theorem projector_tags_branch_spec_witness :
    create_entity_with_details (none, .rawList [], "") "btc" "tags" [] =
      some ((none, "No attribution tags found for this query in btc"), []) := by
  have h := (projector_tags_branch_spec none (.rawList []) "btc"
    ⟨"maltego.BTCAddress", 10 ^ 8, "Satoshi"⟩ "tags" [] (by rfl) (Or.inl rfl)).1 rfl
  simpa using h

/-- Counterexample for C8: a tag whose label is present but empty does
not get the label as entity value; the code tests Python truthiness, so
the empty label takes the undisclosed fallback. -/
theorem tag_entity_empty_label_cex :
    (⟨some "", none, none, some "alice", none, none, none⟩ : Tag).label = some ""
    ∧ (buildTagEntity "btc" ⟨some "", none, none, some "alice", none, none, none⟩).value =
        "Undisclosed, contact: alice"
    ∧ (buildTagEntity "btc" ⟨some "", none, none, some "alice", none, none, none⟩).value ≠ "" :=
  ⟨rfl, rfl, by decide⟩

/-- C8 (amended): for every tag whose label is absent, null or empty, the
constructed owner-type entity's value is "Undisclosed, contact:
<tagpack_creator>", with "Unknown" substituted when no tagpack_creator is
available, and its icon is marked unresolved in that fallback case; when
the label is present and non-empty the entity's value is the label. -/
theorem tag_entity_label_fallback_spec (currency : String) (tag : Tag) :
    ((tag.label = none ∨ tag.label = some "") →
      (buildTagEntity currency tag).value =
        "Undisclosed, contact: " ++ tag.tagpack_creator.getD "Unknown"
      ∧ (buildTagEntity currency tag).iconURL = some "Unknown")
    ∧ (∀ l, tag.label = some l → l ≠ "" →
      (buildTagEntity currency tag).value = l) := by
  constructor
  · intro hlab
    have hfalsy : pyTruthy tag.label = false := by
      rcases hlab with h | h <;> rw [h] <;> rfl
    unfold buildTagEntity
    cases tag.confidence_level <;>
      simp [apply_ite Entity.value, apply_ite Entity.iconURL, hfalsy,
        mkEntity, setIconURL]
  · intro l hl hne
    have htruthy : pyTruthy (some l) = true := by
      simp [pyTruthy, isEmpty_false_of_ne hne]
    unfold buildTagEntity
    cases tag.confidence_level <;>
      simp [apply_ite Entity.value, hl, htruthy, mkEntity]

/-- Witness for C8: a label-less tag without a creator yields the
"Unknown" contact string and the unresolved icon; a non-empty label is
used as the value. -/
theorem tag_entity_label_fallback_spec_witness :
    ((buildTagEntity "btc" ⟨none, none, none, none, none, none, none⟩).value =
        "Undisclosed, contact: Unknown"
      ∧ (buildTagEntity "btc" ⟨none, none, none, none, none, none, none⟩).iconURL =
        some "Unknown")
    ∧ (buildTagEntity "btc" ⟨some "Exchange", none, none, none, none, none, none⟩).value =
        "Exchange" :=
  ⟨(tag_entity_label_fallback_spec "btc" ⟨none, none, none, none, none, none, none⟩).1
      (Or.inl rfl),
   (tag_entity_label_fallback_spec "btc"
      ⟨some "Exchange", none, none, none, none, none, none⟩).2 "Exchange" rfl (by decide)⟩

/-- Counterexample for C2: with a parseable cluster id and a currency
property that is present but empty, the classifier still reports
"Cluster found but currency is missing" (the code tests Python
truthiness, not key presence), instead of succeeding as the claim
states. -/
theorem extract_cluster_empty_currency_cex :
    pyIn [("cluster_ID", "5"), ("currency", "")] "currency" = true
    ∧ pyIntOfString "5" = some 5
    ∧ extract_address_and_currencies [("cluster_ID", "5"), ("currency", "")] =
        (none, [], some "Cluster found but currency is missing") :=
  ⟨rfl, by decide, by decide⟩

/-- C2 (amended): for every property mapping containing a wallet/cluster
identifier key, the classifier takes the cluster branch before any
address handling: if the selected identifier value does not parse as an
integer it returns the invalid-format error; else if the currency
property is absent or empty it returns the missing-currency error; else
it returns the stringified parsed integer and the single-element currency
list with no error. -/
theorem extract_cluster_branch_spec (props : PropMap)
    (hbranch : (pyIn props "cryptocurrency.wallet.name" || pyIn props "cluster_ID") = true) :
    (pyIntOpt (pyOr (pget props "cryptocurrency.wallet.name")
        (pget props "cluster_ID")) = none →
      extract_address_and_currencies props =
        (none, [], some "Invalid Cluster/Wallet ID format (expected integer)"))
    ∧ (∀ n : Int,
      pyIntOpt (pyOr (pget props "cryptocurrency.wallet.name")
          (pget props "cluster_ID")) = some n →
      (pyTruthy (pget props "currency") = false →
        extract_address_and_currencies props =
          (none, [], some "Cluster found but currency is missing"))
      ∧ (∀ cur, pget props "currency" = some cur → cur ≠ "" →
        extract_address_and_currencies props = (some (toString n), [cur], none))) := by
  constructor
  · intro hparse
    simp [extract_address_and_currencies, hbranch, hparse]
  · intro n hparse
    constructor
    · intro hcurr
      simp [extract_address_and_currencies, hbranch, hparse, hcurr]
    · intro cur hcur hne
      have htr : pyTruthy (some cur) = true := by
        simp [pyTruthy, isEmpty_false_of_ne hne]
      simp [extract_address_and_currencies, hbranch, hparse, htr, hcur]

/-- Witness for C2 at the spec's example `{cluster_ID: "12345",
currency: "btc"}`. -/
theorem extract_cluster_branch_spec_witness :
    extract_address_and_currencies [("cluster_ID", "12345"), ("currency", "btc")] =
      (some "12345", ["btc"], none) := by
  have h := ((extract_cluster_branch_spec [("cluster_ID", "12345"), ("currency", "btc")]
    (by decide)).2 12345 (by decide)).2 "btc" (by decide) (by decide)
  exact h.trans (by decide)

/-- Counterexample for C9: the identifier "-5" does not parse as a
non-negative integer, yet the cluster branch accepts it and returns it
with no error (Python `int` accepts negative numbers). -/
theorem cluster_branch_negative_id_cex :
    extract_address_and_currencies [("cluster_ID", "-5"), ("currency", "btc")] =
      (some "-5", ["btc"], none)
    ∧ pyIntOfString "-5" = some (-5) := by decide

/-- C9 (amended): the cluster branch accepts and returns an identifier
only if the raw identifier parses as an integer (of either sign); an
identifier that does not parse as an integer is rejected with the
invalid-format error. -/
theorem cluster_branch_integer_invariant (props : PropMap)
    (hbranch : (pyIn props "cryptocurrency.wallet.name" || pyIn props "cluster_ID") = true) :
    (∀ a cs, extract_address_and_currencies props = (some a, cs, none) →
      ∃ n : Int,
        pyIntOpt (pyOr (pget props "cryptocurrency.wallet.name")
          (pget props "cluster_ID")) = some n ∧ a = toString n)
    ∧ (pyIntOpt (pyOr (pget props "cryptocurrency.wallet.name")
        (pget props "cluster_ID")) = none →
      extract_address_and_currencies props =
        (none, [], some "Invalid Cluster/Wallet ID format (expected integer)")) := by
  constructor
  · intro a cs hres
    cases hparse : pyIntOpt (pyOr (pget props "cryptocurrency.wallet.name")
        (pget props "cluster_ID")) with
    | none =>
      simp [extract_address_and_currencies, hbranch, hparse] at hres
    | some n =>
      refine ⟨n, rfl, ?_⟩
      cases hcurr : pyTruthy (pget props "currency") with
      | false =>
        simp [extract_address_and_currencies, hbranch, hparse, hcurr] at hres
      | true =>
        simp [extract_address_and_currencies, hbranch, hparse, hcurr] at hres
        exact hres.1.symm
  · intro hparse
    simp [extract_address_and_currencies, hbranch, hparse]

/-- Witness for C9: a non-integer identifier is rejected. -/
theorem cluster_branch_integer_invariant_witness :
    extract_address_and_currencies [("cluster_ID", "abc")] =
      (none, [], some "Invalid Cluster/Wallet ID format (expected integer)") :=
  (cluster_branch_integer_invariant [("cluster_ID", "abc")] (by decide)).2 (by decide)

/-- Witness for C1: a concrete hex address matches at least one predicate
and so gets an empty error string. -/
theorem get_currency_exact_matches_witness :
    (get_currency "0x52908400098527886E0F7030069857D2E4169EE7").2 = "" :=
  (get_currency_exact_matches "0x52908400098527886E0F7030069857D2E4169EE7").2.2.2.2
    (by decide)
